import Mathlib

/-!
Verification of the cosmic-atlas backend API clients (NASAClient,
SpaceWeatherClient) and the frontend ISS polling page.

The TypeScript sources are shallowly embedded:

* The response envelope `APIResponse<T>` becomes a structure with a
  `success` flag and `Option`-valued `data` / `error` fields, so the
  exactly-one-of-`data`/`error` invariant is a provable property rather
  than true by construction.
* Each client method builds a `Request` (path, query parameters, cache
  key, TTL) exactly as the source does and hands it to the inherited
  `cachedGet` collaborator, which is modelled as a function parameter
  `cg : Request → Except ε (APIResponse δ)`; `Except` tracks whether the
  collaborator (or anything else) throws.  JavaScript truthiness of
  optional strings (empty string is falsy) and of numbers (0 is falsy)
  is modelled explicitly.
* `Date.now()` is modelled as a `now : Nat` parameter.
* `String.prototype.toUpperCase` / `toLowerCase` are modelled as the
  per-character ASCII case maps.
* The React ISS page is modelled as a state structure and a step
  function over the possible outcomes of one poll tick.
-/

/-- Metadata block of every response envelope. -/
structure Metadata where
  source : String
  timestamp : Nat
  cached : Bool
deriving DecidableEq, Repr

/-- Error payload of a failure envelope. -/
structure ErrorInfo where
  code : String
  message : String
deriving DecidableEq, Repr

/-- The tagged response envelope `APIResponse<T>`.  `data` and `error`
are both optional so that the invariant relating them to `success` is a
theorem, not a typing artifact. -/
structure APIResponse (δ : Type) where
  success : Bool
  data : Option δ
  error : Option ErrorInfo
  metadata : Metadata
deriving DecidableEq, Repr

/-- A query-string parameter value (string or number). -/
inductive ParamValue where
  | str (s : String)
  | num (n : Int)
deriving DecidableEq, Repr

/-- The argument tuple of one `cachedGet` call: path, query parameters
(in insertion order), cache key, TTL. -/
structure Request where
  path : String
  params : List (String × ParamValue)
  cacheKey : String
  ttl : Nat
deriving DecidableEq, Repr

/-- The configuration collaborator: NASA API key and per-category cache
TTLs (`config.apiKeys.nasa`, `config.cache.ttl.*`). -/
structure Config where
  nasaKey : String
  ttlApod : Nat
  ttlMars : Nat
  ttlNeo : Nat
  ttlEarth : Nat
  ttlSpaceWeather : Nat
deriving DecidableEq, Repr

/-- The inherited `cachedGet` collaborator: takes a request, returns an
envelope, or throws (the `Except.error` case). -/
def CachedGet (ε δ : Type) : Type := Request → Except ε (APIResponse δ)

/-- JavaScript `a || d` for an optional string `a`: `undefined` and the
empty string both fall through to the default. -/
def jsOrElse (s : Option String) (d : String) : String :=
  match s with
  | some v => if v = "" then d else v
  | none => d

/-- `String.prototype.toUpperCase`, per-character (ASCII). -/
def jsToUpperCase (s : String) : String := ⟨s.data.map Char.toUpper⟩

/-- `String.prototype.toLowerCase`, per-character (ASCII). -/
def jsToLowerCase (s : String) : String := ⟨s.data.map Char.toLower⟩

/-! ## NASAClient (src/packages/backend/src/services/nasa.ts) -/

/-- Cache key of `getAPOD`: `apod:${date || 'today'}`. -/
def apodCacheKey (date : Option String) : String :=
  "apod:" ++ jsOrElse date "today"

/-- Request built by `getAPOD`: `api_key` always, `date` only when
truthy. -/
def apodRequest (cfg : Config) (date : Option String) : Request where
  path := "/planetary/apod"
  params :=
    [("api_key", ParamValue.str cfg.nasaKey)] ++
      (match date with
       | some d => if d = "" then [] else [("date", ParamValue.str d)]
       | none => [])
  cacheKey := apodCacheKey date
  ttl := cfg.ttlApod

/-- `getAPOD(date?)`. -/
def getAPOD (cfg : Config) {ε δ : Type} (cg : CachedGet ε δ)
    (date : Option String) : Except ε (APIResponse δ) :=
  cg (apodRequest cfg date)

/-- The middle component of the Mars photos cache key:
`${sol || earthDate || 'default'}` (note `sol = 0` is falsy). -/
def marsSolOrDateKey (sol : Option Int) (earthDate : Option String) : String :=
  match sol with
  | some s => if s = 0 then jsOrElse earthDate "default" else toString s
  | none => jsOrElse earthDate "default"

/-- Cache key of `getMarsPhotos`:
`mars:${rover}:${sol || earthDate || 'default'}:${camera || 'all'}`. -/
def marsCacheKey (rover : String) (sol : Option Int) (earthDate : Option String)
    (camera : Option String) : String :=
  "mars:" ++ rover ++ ":" ++ marsSolOrDateKey sol earthDate ++ ":" ++
    jsOrElse camera "all"

/-- Request built by `getMarsPhotos`: `sol` wins over `earth_date` when
defined (even 0); neither defined (or `earthDate` falsy) defaults to
`sol=1000`; `camera` only when truthy. -/
def marsRequest (cfg : Config) (rover : String) (sol : Option Int)
    (earthDate : Option String) (camera : Option String) : Request where
  path := "/mars-photos/api/v1/rovers/" ++ jsToLowerCase rover ++ "/photos"
  params :=
    [("api_key", ParamValue.str cfg.nasaKey)] ++
      (match sol with
       | some s => [("sol", ParamValue.num s)]
       | none =>
         match earthDate with
         | some d =>
           if d = "" then [("sol", ParamValue.num 1000)]
           else [("earth_date", ParamValue.str d)]
         | none => [("sol", ParamValue.num 1000)]) ++
      (match camera with
       | some c => if c = "" then [] else [("camera", ParamValue.str c)]
       | none => [])
  cacheKey := marsCacheKey rover sol earthDate camera
  ttl := cfg.ttlMars

/-- `getMarsPhotos(rover, sol?, earthDate?, camera?)`. -/
def getMarsPhotos (cfg : Config) {ε δ : Type} (cg : CachedGet ε δ)
    (rover : String) (sol : Option Int) (earthDate : Option String)
    (camera : Option String) : Except ε (APIResponse δ) :=
  cg (marsRequest cfg rover sol earthDate camera)

/-- Request built by `getNearEarthObjects`. -/
def neoRequest (cfg : Config) (startDate endDate : String) : Request where
  path := "/neo/rest/v1/feed"
  params := [("api_key", ParamValue.str cfg.nasaKey),
             ("start_date", ParamValue.str startDate),
             ("end_date", ParamValue.str endDate)]
  cacheKey := "neo:" ++ startDate ++ ":" ++ endDate
  ttl := cfg.ttlNeo

/-- `getNearEarthObjects(startDate, endDate)`. -/
def getNearEarthObjects (cfg : Config) {ε δ : Type} (cg : CachedGet ε δ)
    (startDate endDate : String) : Except ε (APIResponse δ) :=
  cg (neoRequest cfg startDate endDate)

/-- Cache key of `getEarthImagery`:
`earth-imagery:${lat}:${lon}:${date || 'latest'}` — `dim` does not occur. -/
def earthImageryCacheKey (lat lon : Int) (date : Option String) : String :=
  "earth-imagery:" ++ toString lat ++ ":" ++ toString lon ++ ":" ++
    jsOrElse date "latest"

/-- Request built by `getEarthImagery`: `lat`, `lon`, `dim` always sent;
`date` only when truthy.  The cache key ignores `dim`. -/
def earthImageryRequest (cfg : Config) (lat lon : Int) (date : Option String)
    (dim : Int) : Request where
  path := "/planetary/earth/imagery"
  params :=
    [("api_key", ParamValue.str cfg.nasaKey),
     ("lat", ParamValue.num lat),
     ("lon", ParamValue.num lon),
     ("dim", ParamValue.num dim)] ++
      (match date with
       | some d => if d = "" then [] else [("date", ParamValue.str d)]
       | none => [])
  cacheKey := earthImageryCacheKey lat lon date
  ttl := cfg.ttlEarth

/-- `getEarthImagery(lat, lon, date?, dim)`.  Numeric inputs are
modelled as integers; the claims settled here do not depend on
fractional values. -/
def getEarthImagery (cfg : Config) {ε δ : Type} (cg : CachedGet ε δ)
    (lat lon : Int) (date : Option String) (dim : Int) :
    Except ε (APIResponse δ) :=
  cg (earthImageryRequest cfg lat lon date dim)

/-- The DONKI event-type allow-list object literal (own properties
only; every lookup key is uppercased first, and no inherited object
property has an all-uppercase name, so an association list is a faithful
model of the bracket lookup). -/
def donkiTypeMap : List (String × String) :=
  [("FLR", "FLR"), ("SEP", "SEP"), ("CME", "CME"), ("IPS", "IPS"),
   ("MPC", "MPC"), ("GST", "GST"), ("RBE", "RBE"), ("HSS", "HSS")]

/-- `typeMap[type.toUpperCase()] || 'FLR'` (all map values are nonempty
strings, hence truthy). -/
def donkiEventType (t : String) : String :=
  match donkiTypeMap.lookup (jsToUpperCase t) with
  | some e => e
  | none => "FLR"

/-- Request built by `getDONKIEvents`. -/
def donkiRequest (cfg : Config) (t startDate endDate : String) : Request where
  path := "/DONKI/" ++ donkiEventType t
  params := [("api_key", ParamValue.str cfg.nasaKey),
             ("startDate", ParamValue.str startDate),
             ("endDate", ParamValue.str endDate)]
  cacheKey := "donki:" ++ donkiEventType t ++ ":" ++ startDate ++ ":" ++ endDate
  ttl := cfg.ttlSpaceWeather

/-- `getDONKIEvents(type, startDate, endDate)`. -/
def getDONKIEvents (cfg : Config) {ε δ : Type} (cg : CachedGet ε δ)
    (t startDate endDate : String) : Except ε (APIResponse δ) :=
  cg (donkiRequest cfg t startDate endDate)

/-! ## SpaceWeatherClient (src/packages/backend/src/services/spaceWeather.ts) -/

/-- Payload of a successful aurora forecast: the `data` fields of the
two hemisphere envelopes, copied verbatim. -/
structure AuroraData (δ : Type) where
  north : Option δ
  south : Option δ
deriving DecidableEq, Repr

/-- Payload of a successful space-weather summary. -/
structure SummaryData (δ : Type) where
  solarWind : Option δ
  geomagneticActivity : Option δ
  auroraForecast : Option (AuroraData δ)
  forecast3Day : Option δ
  timestamp : Nat
deriving DecidableEq, Repr

/-- The request of the northern-hemisphere aurora fetch. -/
def auroraNorthRequest (cfg : Config) : Request where
  path := "/products/aurora-forecast-northern-hemisphere.json"
  params := []
  cacheKey := "aurora-north"
  ttl := cfg.ttlSpaceWeather

/-- The request of the southern-hemisphere aurora fetch. -/
def auroraSouthRequest (cfg : Config) : Request where
  path := "/products/aurora-forecast-southern-hemisphere.json"
  params := []
  cacheKey := "aurora-south"
  ttl := cfg.ttlSpaceWeather

/-- The request of the solar-wind fetch. -/
def solarWindRequest (cfg : Config) : Request where
  path := "/products/solar-wind/mag-1-day.json"
  params := []
  cacheKey := "solar-wind"
  ttl := cfg.ttlSpaceWeather

/-- The request of the Kp-index fetch. -/
def kpIndexRequest (cfg : Config) : Request where
  path := "/products/noaa-planetary-k-index.json"
  params := []
  cacheKey := "kp-index"
  ttl := cfg.ttlSpaceWeather

/-- The request of the 3-day forecast fetch. -/
def forecast3DayRequest (cfg : Config) : Request where
  path := "/products/3-day-forecast.json"
  params := []
  cacheKey := "forecast-3day"
  ttl := cfg.ttlSpaceWeather

/-- The aggregation step of `getAuroraForecast` over the two joined
hemisphere envelopes (lines 32-58 of spaceWeather.ts): if either fetch
did not succeed, a fixed failure envelope; otherwise a success envelope
carrying both data fields. -/
def auroraCombine {δ : Type} (north south : APIResponse δ) (now : Nat) :
    APIResponse (AuroraData δ) :=
  if !north.success || !south.success then
    { success := false
      data := none
      error := some { code := "AURORA_FORECAST_ERROR"
                      message := "Failed to fetch aurora forecast" }
      metadata := { source := "NOAA-SWPC", timestamp := now, cached := false } }
  else
    { success := true
      data := some { north := north.data, south := south.data }
      error := none
      metadata := { source := "NOAA-SWPC", timestamp := now, cached := false } }

/-- `getAuroraForecast()`: two parallel hemisphere fetches joined, then
aggregated all-or-nothing. -/
def getAuroraForecast (cfg : Config) {ε δ : Type} (cg : CachedGet ε δ)
    (now : Nat) : Except ε (APIResponse (AuroraData δ)) := do
  let north ← cg (auroraNorthRequest cfg)
  let south ← cg (auroraSouthRequest cfg)
  pure (auroraCombine north south now)

/-- `getSolarWind()`. -/
def getSolarWind (cfg : Config) {ε δ : Type} (cg : CachedGet ε δ) :
    Except ε (APIResponse δ) :=
  cg (solarWindRequest cfg)

/-- `getGeomagneticActivity()`. -/
def getGeomagneticActivity (cfg : Config) {ε δ : Type} (cg : CachedGet ε δ) :
    Except ε (APIResponse δ) :=
  cg (kpIndexRequest cfg)

/-- `get3DayForecast()`. -/
def get3DayForecast (cfg : Config) {ε δ : Type} (cg : CachedGet ε δ) :
    Except ε (APIResponse δ) :=
  cg (forecast3DayRequest cfg)

/-- `getSolarFlares(startDate, endDate)` delegates to the NASA client. -/
def getSolarFlares (cfg : Config) {ε δ : Type} (cg : CachedGet ε δ)
    (startDate endDate : String) : Except ε (APIResponse δ) :=
  getDONKIEvents cfg cg "FLR" startDate endDate

/-- `getCMEs(startDate, endDate)`. -/
def getCMEs (cfg : Config) {ε δ : Type} (cg : CachedGet ε δ)
    (startDate endDate : String) : Except ε (APIResponse δ) :=
  getDONKIEvents cfg cg "CME" startDate endDate

/-- `getGeomagneticStorms(startDate, endDate)`. -/
def getGeomagneticStorms (cfg : Config) {ε δ : Type} (cg : CachedGet ε δ)
    (startDate endDate : String) : Except ε (APIResponse δ) :=
  getDONKIEvents cfg cg "GST" startDate endDate

/-- `getSEPEvents(startDate, endDate)`. -/
def getSEPEvents (cfg : Config) {ε δ : Type} (cg : CachedGet ε δ)
    (startDate endDate : String) : Except ε (APIResponse δ) :=
  getDONKIEvents cfg cg "SEP" startDate endDate

/-- The aggregation step of `getSpaceWeatherSummary` over the four
joined constituent envelopes (lines 161-190 of spaceWeather.ts). -/
def summaryCombine {δ : Type} (solarWind geomagActivity : APIResponse δ)
    (aurora : APIResponse (AuroraData δ)) (forecast : APIResponse δ)
    (now : Nat) : APIResponse (SummaryData δ) :=
  if !solarWind.success || !geomagActivity.success || !aurora.success ||
      !forecast.success then
    { success := false
      data := none
      error := some { code := "SPACE_WEATHER_ERROR"
                      message := "Failed to fetch complete space weather data" }
      metadata := { source := "NOAA-SWPC", timestamp := now, cached := false } }
  else
    { success := true
      data := some { solarWind := solarWind.data
                     geomagneticActivity := geomagActivity.data
                     auroraForecast := aurora.data
                     forecast3Day := forecast.data
                     timestamp := now }
      error := none
      metadata := { source := "NOAA-SWPC", timestamp := now, cached := false } }

/-- `getSpaceWeatherSummary()`: four parallel constituent fetches (one
of which, the aurora forecast, is itself the two-fetch composite)
joined, then aggregated all-or-nothing. -/
def getSpaceWeatherSummary (cfg : Config) {ε δ : Type} (cg : CachedGet ε δ)
    (now : Nat) : Except ε (APIResponse (SummaryData δ)) := do
  let solarWind ← getSolarWind cfg cg
  let geomagActivity ← getGeomagneticActivity cfg cg
  let aurora ← getAuroraForecast cfg cg now
  let forecast ← get3DayForecast cfg cg
  pure (summaryCombine solarWind geomagActivity aurora forecast now)

/-! ## Frontend ISS page (src/packages/frontend/app/iss/page.tsx) -/

/-- An astronaut record from the backend crew endpoint. -/
structure Astronaut where
  name : String
  craft : String
deriving DecidableEq, Repr

/-- The component state of `ISSPage`: the four `useState` hooks.  The
position payload type is abstract (its float fields play no role in the
claims). -/
structure ISSState (π : Type) where
  position : Option π
  astronauts : List Astronaut
  loading : Bool
  error : Option String
deriving DecidableEq, Repr

/-- The initial component state. -/
def initISSState (π : Type) : ISSState π where
  position := none
  astronauts := []
  loading := true
  error := none

/-- The parsed body of the position endpoint, as `fetchData` consumes
it: the `success` tag and the `data` payload stored by `setPosition`. -/
structure PosJson (π : Type) where
  success : Bool
  data : π
deriving DecidableEq, Repr

/-- The parsed body of the astronauts endpoint, as `fetchData` consumes
it: the `success` tag and `data.people`. -/
structure AstroJson where
  success : Bool
  people : List Astronaut
deriving DecidableEq, Repr

/-- What one execution of `fetchData` can observe: the position
fetch/parse throws; or it yields a body but the astronauts fetch/parse
throws; or both yield bodies. -/
inductive TickOutcome (π : Type) where
  | posThrow
  | astroThrow (pos : PosJson π)
  | completed (pos : PosJson π) (astro : AstroJson)
deriving DecidableEq, Repr

/-- The error message set by the `catch` block. -/
def issErrorMessage : String := "Failed to load ISS data"

/-- One execution of `fetchData` as a state transformer.  Statement
order follows the source: position body handled first (`setPosition`
only when `success`), then astronauts (`setAstronauts` with the
craft = ISS filter only when `success`), then `setLoading(false)`; any
throw jumps to the `catch` block, which sets the error message and
clears `loading` but touches nothing else. -/
def fetchDataStep {π : Type} (s : ISSState π) (o : TickOutcome π) :
    ISSState π :=
  match o with
  | .posThrow =>
    { s with error := some issErrorMessage, loading := false }
  | .astroThrow pos =>
    let s1 := if pos.success then { s with position := some pos.data } else s
    { s1 with error := some issErrorMessage, loading := false }
  | .completed pos astro =>
    let s1 := if pos.success then { s with position := some pos.data } else s
    let s2 :=
      if astro.success then
        { s1 with astronauts := astro.people.filter (fun a => a.craft = "ISS") }
      else s1
    { s2 with loading := false }

/-- The state after a sequence of poll ticks. -/
def runTicks {π : Type} (s : ISSState π) (os : List (TickOutcome π)) :
    ISSState π :=
  os.foldl fetchDataStep s

/-- Each tick leaves the error state unchanged or sets it to the fixed
catch-block message; it never clears it. -/
theorem fetchDataStep_error {π : Type} (s : ISSState π) (o : TickOutcome π) :
    (fetchDataStep s o).error = s.error ∨
      (fetchDataStep s o).error = some issErrorMessage := by
  cases o with
  | posThrow => exact Or.inr rfl
  | astroThrow pos =>
    by_cases h : pos.success <;> simp [fetchDataStep, h]
  | completed pos astro =>
    left
    by_cases hp : pos.success <;> by_cases ha : astro.success <;>
      simp [fetchDataStep, hp, ha]

/-! ## Fixtures used by witnesses -/

/-- A concrete configuration. -/
def cfg0 : Config where
  nasaKey := "DEMO_KEY"
  ttlApod := 3600
  ttlMars := 3600
  ttlNeo := 3600
  ttlEarth := 3600
  ttlSpaceWeather := 600

/-- A concrete success envelope over `Nat` payloads; `cached := true`
checks that downstream metadata does not copy the flag. -/
def okEnvNat : APIResponse Nat where
  success := true
  data := some 7
  error := none
  metadata := { source := "NOAA-SWPC", timestamp := 1, cached := true }

/-- A concrete failure envelope over `Nat` payloads. -/
def failEnvNat : APIResponse Nat where
  success := false
  data := none
  error := some { code := "UPSTREAM", message := "boom" }
  metadata := { source := "NOAA-SWPC", timestamp := 1, cached := false }

/-- A collaborator that answers every request with `okEnvNat`. -/
def cgOkNat : CachedGet Unit Nat := fun _ => Except.ok okEnvNat

/-! ## Claims about the space-weather aggregation -/

/-- C2: `getAuroraForecast` returns a success envelope with both
hemisphere payloads iff both hemisphere fetches succeed; otherwise it
returns the fixed AURORA_FORECAST_ERROR failure envelope, which carries
no data and is one constant (given the clock) independent of which
fetch failed. -/
theorem getAuroraForecast_all_or_nothing {ε δ : Type} (cfg : Config)
    (cg : CachedGet ε δ) (north south : APIResponse δ) (now : Nat)
    (hn : cg (auroraNorthRequest cfg) = Except.ok north)
    (hs : cg (auroraSouthRequest cfg) = Except.ok south) :
    getAuroraForecast cfg cg now = Except.ok (auroraCombine north south now) ∧
    ((auroraCombine north south now).success = true ↔
      (north.success = true ∧ south.success = true)) ∧
    (north.success = true → south.success = true →
      auroraCombine north south now =
        { success := true
          data := some { north := north.data, south := south.data }
          error := none
          metadata := { source := "NOAA-SWPC", timestamp := now, cached := false } }) ∧
    (¬(north.success = true ∧ south.success = true) →
      auroraCombine north south now =
        { success := false
          data := none
          error := some { code := "AURORA_FORECAST_ERROR"
                          message := "Failed to fetch aurora forecast" }
          metadata := { source := "NOAA-SWPC", timestamp := now, cached := false } }) := by
  refine ⟨?_, ?_, ?_, ?_⟩
  · simp [getAuroraForecast, hn, hs, Bind.bind, Except.bind, Pure.pure, Except.pure]
  · unfold auroraCombine
    cases hn' : north.success <;> cases hs' : south.success <;> simp [hn', hs']
  · intro hn' hs'
    simp [auroraCombine, hn', hs']
  · intro hne
    unfold auroraCombine
    cases hn' : north.success <;> cases hs' : south.success <;>
      simp_all

/-- C2 witness: a run where both hemisphere fetches succeed. -/
theorem getAuroraForecast_all_or_nothing_witness :
    getAuroraForecast cfg0 cgOkNat 5 =
      Except.ok (auroraCombine okEnvNat okEnvNat 5) ∧
    ((auroraCombine okEnvNat okEnvNat 5).success = true ↔
      (okEnvNat.success = true ∧ okEnvNat.success = true)) ∧
    (okEnvNat.success = true → okEnvNat.success = true →
      auroraCombine okEnvNat okEnvNat 5 =
        { success := true
          data := some { north := okEnvNat.data, south := okEnvNat.data }
          error := none
          metadata := { source := "NOAA-SWPC", timestamp := 5, cached := false } }) ∧
    (¬(okEnvNat.success = true ∧ okEnvNat.success = true) →
      auroraCombine okEnvNat okEnvNat 5 =
        { success := false
          data := none
          error := some { code := "AURORA_FORECAST_ERROR"
                          message := "Failed to fetch aurora forecast" }
          metadata := { source := "NOAA-SWPC", timestamp := 5, cached := false } }) :=
  getAuroraForecast_all_or_nothing cfg0 cgOkNat okEnvNat okEnvNat 5 rfl rfl

/-- C1: `getSpaceWeatherSummary` returns a success envelope iff all
four constituent fetches (solar wind, geomagnetic activity, aurora
forecast, 3-day forecast) succeed; any single failure yields the fixed
SPACE_WEATHER_ERROR failure envelope, which carries no data and is one
constant (given the clock) independent of which constituent failed. -/
theorem getSpaceWeatherSummary_all_or_nothing {ε δ : Type} (cfg : Config)
    (cg : CachedGet ε δ) (solarWind geomagActivity north south forecast : APIResponse δ)
    (now : Nat)
    (hw : cg (solarWindRequest cfg) = Except.ok solarWind)
    (hk : cg (kpIndexRequest cfg) = Except.ok geomagActivity)
    (hn : cg (auroraNorthRequest cfg) = Except.ok north)
    (hs : cg (auroraSouthRequest cfg) = Except.ok south)
    (hf : cg (forecast3DayRequest cfg) = Except.ok forecast) :
    getSpaceWeatherSummary cfg cg now =
      Except.ok (summaryCombine solarWind geomagActivity
        (auroraCombine north south now) forecast now) ∧
    ((summaryCombine solarWind geomagActivity
        (auroraCombine north south now) forecast now).success = true ↔
      (solarWind.success = true ∧ geomagActivity.success = true ∧
        (auroraCombine north south now).success = true ∧ forecast.success = true)) ∧
    (¬(solarWind.success = true ∧ geomagActivity.success = true ∧
        (auroraCombine north south now).success = true ∧ forecast.success = true) →
      summaryCombine solarWind geomagActivity
          (auroraCombine north south now) forecast now =
        { success := false
          data := none
          error := some { code := "SPACE_WEATHER_ERROR"
                          message := "Failed to fetch complete space weather data" }
          metadata := { source := "NOAA-SWPC", timestamp := now, cached := false } }) := by
  refine ⟨?_, ?_, ?_⟩
  · simp [getSpaceWeatherSummary, getSolarWind, getGeomagneticActivity,
      getAuroraForecast, get3DayForecast, hw, hk, hn, hs, hf,
      Bind.bind, Except.bind, Pure.pure, Except.pure]
  · unfold summaryCombine
    cases hw' : solarWind.success <;> cases hk' : geomagActivity.success <;>
      cases ha' : (auroraCombine north south now).success <;>
        cases hf' : forecast.success <;> simp [hw', hk', ha', hf']
  · intro hne
    unfold summaryCombine
    cases hw' : solarWind.success <;> cases hk' : geomagActivity.success <;>
      cases ha' : (auroraCombine north south now).success <;>
        cases hf' : forecast.success <;> simp_all

/-- C1 witness: a run where all constituent fetches succeed. -/
theorem getSpaceWeatherSummary_all_or_nothing_witness :
    getSpaceWeatherSummary cfg0 cgOkNat 5 =
      Except.ok (summaryCombine okEnvNat okEnvNat
        (auroraCombine okEnvNat okEnvNat 5) okEnvNat 5) ∧
    ((summaryCombine okEnvNat okEnvNat
        (auroraCombine okEnvNat okEnvNat 5) okEnvNat 5).success = true ↔
      (okEnvNat.success = true ∧ okEnvNat.success = true ∧
        (auroraCombine okEnvNat okEnvNat 5).success = true ∧
        okEnvNat.success = true)) ∧
    (¬(okEnvNat.success = true ∧ okEnvNat.success = true ∧
        (auroraCombine okEnvNat okEnvNat 5).success = true ∧
        okEnvNat.success = true) →
      summaryCombine okEnvNat okEnvNat
          (auroraCombine okEnvNat okEnvNat 5) okEnvNat 5 =
        { success := false
          data := none
          error := some { code := "SPACE_WEATHER_ERROR"
                          message := "Failed to fetch complete space weather data" }
          metadata := { source := "NOAA-SWPC", timestamp := 5, cached := false } }) :=
  getSpaceWeatherSummary_all_or_nothing cfg0 cgOkNat okEnvNat okEnvNat okEnvNat
    okEnvNat okEnvNat 5 rfl rfl rfl rfl rfl

/-- The exactly-one-of-`data`/`error` envelope invariant, determined by
the `success` tag. -/
def envelopeInvariant {δ : Type} (r : APIResponse δ) : Prop :=
  (r.success = true → r.data.isSome = true ∧ r.error = none) ∧
  (r.success = false → r.data = none ∧ r.error.isSome = true)

/-- C6: every envelope the clients construct themselves (the aggregation
envelopes of `getAuroraForecast` and `getSpaceWeatherSummary`) carries
exactly one of `data`/`error`, selected by the `success` tag, whatever
the constituent envelopes look like. -/
theorem clients_envelope_invariant {δ : Type}
    (north south solarWind geomagActivity forecast : APIResponse δ)
    (aurora : APIResponse (AuroraData δ)) (now : Nat) :
    envelopeInvariant (auroraCombine north south now) ∧
    envelopeInvariant (summaryCombine solarWind geomagActivity aurora forecast now) := by
  constructor
  · unfold envelopeInvariant auroraCombine
    split <;> simp
  · unfold envelopeInvariant summaryCombine
    split <;> simp

/-- C6 witness: the invariant evaluated on concrete success and failure
aggregations. -/
theorem clients_envelope_invariant_witness :
    envelopeInvariant (auroraCombine okEnvNat failEnvNat 5) ∧
    envelopeInvariant (summaryCombine okEnvNat okEnvNat
      (auroraCombine okEnvNat okEnvNat 5) okEnvNat 5) :=
  clients_envelope_invariant okEnvNat failEnvNat okEnvNat okEnvNat okEnvNat
    (auroraCombine okEnvNat okEnvNat 5) 5

/-- C9: whatever the constituent envelopes (in particular even when all
of them were served from the cache, `metadata.cached = true`), the
envelopes returned by the two aggregations always carry
`source = NOAA-SWPC` and `cached = false`. -/
theorem spaceWeather_metadata_constant {δ : Type}
    (north south solarWind geomagActivity forecast : APIResponse δ)
    (aurora : APIResponse (AuroraData δ)) (now : Nat) :
    (auroraCombine north south now).metadata.source = "NOAA-SWPC" ∧
    (auroraCombine north south now).metadata.cached = false ∧
    (summaryCombine solarWind geomagActivity aurora forecast now).metadata.source =
      "NOAA-SWPC" ∧
    (summaryCombine solarWind geomagActivity aurora forecast now).metadata.cached =
      false := by
  refine ⟨?_, ?_, ?_, ?_⟩ <;>
    first
    | (unfold auroraCombine; split <;> rfl)
    | (unfold summaryCombine; split <;> rfl)

/-- C7: assuming the inherited `cachedGet` collaborator never throws,
no operation of `NASAClient` or `SpaceWeatherClient` ever throws: every
invocation evaluates to a returned envelope (`Except.ok`), so all
failures reach the caller as data behind the `success` tag. -/
theorem clients_never_throw {ε δ : Type} (cfg : Config) (cg : CachedGet ε δ)
    (h : ∀ r, ∃ v, cg r = Except.ok v) :
    (∀ date, ∃ v, getAPOD cfg cg date = Except.ok v) ∧
    (∀ rover sol earthDate camera, ∃ v,
      getMarsPhotos cfg cg rover sol earthDate camera = Except.ok v) ∧
    (∀ sd ed, ∃ v, getNearEarthObjects cfg cg sd ed = Except.ok v) ∧
    (∀ lat lon date dim, ∃ v,
      getEarthImagery cfg cg lat lon date dim = Except.ok v) ∧
    (∀ t sd ed, ∃ v, getDONKIEvents cfg cg t sd ed = Except.ok v) ∧
    (∀ now, ∃ v, getAuroraForecast cfg cg now = Except.ok v) ∧
    (∃ v, getSolarWind cfg cg = Except.ok v) ∧
    (∃ v, getGeomagneticActivity cfg cg = Except.ok v) ∧
    (∃ v, get3DayForecast cfg cg = Except.ok v) ∧
    (∀ sd ed, ∃ v, getSolarFlares cfg cg sd ed = Except.ok v) ∧
    (∀ sd ed, ∃ v, getCMEs cfg cg sd ed = Except.ok v) ∧
    (∀ sd ed, ∃ v, getGeomagneticStorms cfg cg sd ed = Except.ok v) ∧
    (∀ sd ed, ∃ v, getSEPEvents cfg cg sd ed = Except.ok v) ∧
    (∀ now, ∃ v, getSpaceWeatherSummary cfg cg now = Except.ok v) := by
  refine ⟨fun date => h _, fun rover sol earthDate camera => h _,
    fun sd ed => h _, fun lat lon date dim => h _, fun t sd ed => h _,
    ?_, h _, h _, h _, fun sd ed => h _, fun sd ed => h _,
    fun sd ed => h _, fun sd ed => h _, ?_⟩
  · intro now
    obtain ⟨north, hn⟩ := h (auroraNorthRequest cfg)
    obtain ⟨south, hs⟩ := h (auroraSouthRequest cfg)
    exact ⟨auroraCombine north south now,
      by simp [getAuroraForecast, hn, hs, Bind.bind, Except.bind,
        Pure.pure, Except.pure]⟩
  · intro now
    obtain ⟨solarWind, hw⟩ := h (solarWindRequest cfg)
    obtain ⟨geomagActivity, hk⟩ := h (kpIndexRequest cfg)
    obtain ⟨north, hn⟩ := h (auroraNorthRequest cfg)
    obtain ⟨south, hs⟩ := h (auroraSouthRequest cfg)
    obtain ⟨forecast, hf⟩ := h (forecast3DayRequest cfg)
    exact ⟨summaryCombine solarWind geomagActivity
        (auroraCombine north south now) forecast now,
      by simp [getSpaceWeatherSummary, getSolarWind, getGeomagneticActivity,
        getAuroraForecast, get3DayForecast, hw, hk, hn, hs, hf,
        Bind.bind, Except.bind, Pure.pure, Except.pure]⟩

/-- C7 witness: with a collaborator that always returns an envelope,
the composite summary operation returns an envelope. -/
theorem clients_never_throw_witness :
    ∃ v, getSpaceWeatherSummary cfg0 cgOkNat 5 = Except.ok v :=
  (clients_never_throw cfg0 cgOkNat fun _ => ⟨okEnvNat, rfl⟩).2.2.2.2.2.2.2.2.2.2.2.2.2 5

/-! ## Claims about the NASA request construction -/

/-- C4: the request of `getMarsPhotos` carries `sol=1000` when neither
`sol` nor `earthDate` is supplied, and whenever `sol` is supplied
(including `sol = 0`) the request carries that `sol` and no
`earth_date` parameter at all. -/
theorem getMarsPhotos_sol_precedence (cfg : Config) (rover : String)
    (sol : Option Int) (earthDate : Option String) (camera : Option String) :
    (sol = none → earthDate = none →
      ("sol", ParamValue.num 1000) ∈
        (marsRequest cfg rover sol earthDate camera).params) ∧
    (∀ s, sol = some s →
      ("sol", ParamValue.num s) ∈
          (marsRequest cfg rover sol earthDate camera).params ∧
        ∀ v, ("earth_date", v) ∉
          (marsRequest cfg rover sol earthDate camera).params) := by
  constructor
  · rintro rfl rfl
    rcases camera with _ | c
    · simp [marsRequest]
    · by_cases hc : c = "" <;> simp [marsRequest, hc]
  · rintro s rfl
    constructor
    · rcases camera with _ | c
      · simp [marsRequest]
      · by_cases hc : c = "" <;> simp [marsRequest, hc]
    · intro v
      rcases camera with _ | c
      · simp [marsRequest]
      · by_cases hc : c = "" <;> simp [marsRequest, hc]

/-- C4 witness: `sol = 0` together with an Earth date still sends
`sol=0` and no `earth_date`; no arguments at all sends `sol=1000`. -/
theorem getMarsPhotos_sol_precedence_witness :
    ("sol", ParamValue.num 0) ∈
      (marsRequest cfg0 "Curiosity" (some 0) (some "2024-01-01") none).params ∧
    ("earth_date", ParamValue.str "2024-01-01") ∉
      (marsRequest cfg0 "Curiosity" (some 0) (some "2024-01-01") none).params ∧
    ("sol", ParamValue.num 1000) ∈
      (marsRequest cfg0 "Curiosity" none none none).params :=
  ⟨((getMarsPhotos_sol_precedence cfg0 "Curiosity" (some 0)
      (some "2024-01-01") none).2 0 rfl).1,
   ((getMarsPhotos_sol_precedence cfg0 "Curiosity" (some 0)
      (some "2024-01-01") none).2 0 rfl).2 (ParamValue.str "2024-01-01"),
   (getMarsPhotos_sol_precedence cfg0 "Curiosity" none none none).1 rfl rfl⟩

/-- The eight allow-listed DONKI event types. -/
def donkiAllowList : List String :=
  ["FLR", "SEP", "CME", "IPS", "MPC", "GST", "RBE", "HSS"]

/-- C5: if the uppercased input is on the eight-entry allow-list, the
DONKI request targets that uppercase type; for every other input it
falls back to FLR. -/
theorem getDONKIEvents_type_fallback (cfg : Config) (t sd ed : String) :
    (jsToUpperCase t ∈ donkiAllowList →
      donkiEventType t = jsToUpperCase t ∧
      (donkiRequest cfg t sd ed).path = "/DONKI/" ++ jsToUpperCase t) ∧
    (jsToUpperCase t ∉ donkiAllowList →
      donkiEventType t = "FLR" ∧
      (donkiRequest cfg t sd ed).path = "/DONKI/" ++ "FLR") := by
  constructor
  · intro hmem
    have hty : donkiEventType t = jsToUpperCase t := by
      simp [donkiAllowList] at hmem
      rcases hmem with h | h | h | h | h | h | h | h <;>
        simp [donkiEventType, donkiTypeMap, List.lookup, h]
    exact ⟨hty, by simp [donkiRequest, hty]⟩
  · intro hmem
    have hty : donkiEventType t = "FLR" := by
      simp [donkiAllowList] at hmem
      obtain ⟨h1, h2, h3, h4, h5, h6, h7, h8⟩ := hmem
      have e1 : (jsToUpperCase t == "FLR") = false := beq_false_of_ne h1
      have e2 : (jsToUpperCase t == "SEP") = false := beq_false_of_ne h2
      have e3 : (jsToUpperCase t == "CME") = false := beq_false_of_ne h3
      have e4 : (jsToUpperCase t == "IPS") = false := beq_false_of_ne h4
      have e5 : (jsToUpperCase t == "MPC") = false := beq_false_of_ne h5
      have e6 : (jsToUpperCase t == "GST") = false := beq_false_of_ne h6
      have e7 : (jsToUpperCase t == "RBE") = false := beq_false_of_ne h7
      have e8 : (jsToUpperCase t == "HSS") = false := beq_false_of_ne h8
      simp [donkiEventType, donkiTypeMap, List.lookup,
        e1, e2, e3, e4, e5, e6, e7, e8]
    exact ⟨hty, by simp [donkiRequest, hty]⟩

/-- C5 witness: a lowercase allow-listed type is uppercased, an unknown
type falls back to FLR. -/
theorem getDONKIEvents_type_fallback_witness :
    donkiEventType "cme" = jsToUpperCase "cme" ∧ donkiEventType "xray" = "FLR" :=
  ⟨((getDONKIEvents_type_fallback cfg0 "cme" "2024-01-01" "2024-01-02").1
      (by decide)).1,
   ((getDONKIEvents_type_fallback cfg0 "xray" "2024-01-01" "2024-01-02").2
      (by decide)).1⟩

/-- Left cancellation of string concatenation, used for cache-key
distinctness. -/
theorem string_append_left_cancel (s t u : String) (h : s ++ t = s ++ u) :
    t = u := by
  have hd : (s ++ t).data = (s ++ u).data := by rw [h]
  simp [String.data_append] at hd
  exact String.ext hd

/-- C3 counterexample: the claim fails.  Two distinct `getEarthImagery`
parameter tuples — identical except for `dim` (1 versus 2) — build
observably different requests (different `dim` query parameters) but
the very same cache key, because the key template omits `dim`. -/
theorem cacheKey_distinctness_counterexample :
    ((1 : Int), (1 : Int), (none : Option String), (1 : Int)) ≠
      ((1 : Int), (1 : Int), (none : Option String), (2 : Int)) ∧
    (earthImageryRequest cfg0 1 1 none 1).params ≠
      (earthImageryRequest cfg0 1 1 none 2).params ∧
    (earthImageryRequest cfg0 1 1 none 1).cacheKey =
      (earthImageryRequest cfg0 1 1 none 2).cacheKey :=
  ⟨by decide, by decide, rfl⟩

/-- C3 amended: cache keys are stable — as pure functions of the
parameter tuple, equal tuples always give equal keys — and the keys of
distinct truthy APOD dates are distinct, as are the example key pairs
named by the spec; but distinctness does not hold for every pair of
distinct parameter tuples (see the counterexample: `getEarthImagery`
omits `dim` from its key). -/
theorem cacheKeys_stable_and_spec_examples (d1 d2 : String)
    (h1 : d1 ≠ "") (h2 : d2 ≠ "") (hne : d1 ≠ d2) :
    apodCacheKey (some d1) ≠ apodCacheKey (some d2) ∧
    apodCacheKey (some "2024-01-01") ≠ apodCacheKey none ∧
    marsCacheKey "curiosity" (some 1000) none none ≠
      marsCacheKey "curiosity" (some 1000) none (some "MAST") := by
  refine ⟨?_, by decide, by decide⟩
  intro heq
  apply hne
  have e1 : apodCacheKey (some d1) = "apod:" ++ d1 := by
    simp [apodCacheKey, jsOrElse, h1]
  have e2 : apodCacheKey (some d2) = "apod:" ++ d2 := by
    simp [apodCacheKey, jsOrElse, h2]
  exact string_append_left_cancel "apod:" d1 d2 (e1 ▸ e2 ▸ heq)

/-- C3 amended witness: two concrete distinct dates give distinct APOD
keys. -/
theorem cacheKeys_stable_and_spec_examples_witness :
    apodCacheKey (some "2024-01-01") ≠ apodCacheKey (some "2024-01-02") :=
  (cacheKeys_stable_and_spec_examples "2024-01-01" "2024-01-02"
    (by decide) (by decide) (by decide)).1

/-! ## Claims about the ISS polling page -/

/-- Error non-nullness is preserved by every sequence of ticks. -/
theorem runTicks_error_sticky {π : Type} (os : List (TickOutcome π))
    (s : ISSState π) (h : s.error ≠ none) : (runTicks s os).error ≠ none := by
  induction os generalizing s with
  | nil => exact h
  | cons o os ih =>
    have hstep : (fetchDataStep s o).error ≠ none := by
      rcases fetchDataStep_error s o with he | he <;> rw [he] <;> simp_all
    exact ih (fetchDataStep s o) hstep

/-- C8: once a failed poll cycle has set the error state, no later tick
— throwing or not — ever resets it to null; yet a successful later tick
still replaces the position and the (ISS-filtered) astronaut list. -/
theorem iss_error_never_cleared {π : Type} (s : ISSState π)
    (os : List (TickOutcome π)) (h : s.error ≠ none) :
    (runTicks s os).error ≠ none ∧
    (∀ pos astro, pos.success = true → astro.success = true →
      (fetchDataStep s (TickOutcome.completed pos astro)).position =
          some pos.data ∧
        (fetchDataStep s (TickOutcome.completed pos astro)).astronauts =
          astro.people.filter (fun a => a.craft = "ISS")) := by
  refine ⟨runTicks_error_sticky os s h, ?_⟩
  intro pos astro hp ha
  constructor <;> simp [fetchDataStep, hp, ha]

/-- C8 witness: from an errored state, a throwing tick followed by a
fully successful tick leaves the error set, while the successful tick
updates the data. -/
theorem iss_error_never_cleared_witness :
    (runTicks (⟨none, [], false, some issErrorMessage⟩ : ISSState Nat)
        [TickOutcome.posThrow,
         TickOutcome.completed ⟨true, 42⟩ ⟨true, [⟨"A", "ISS"⟩, ⟨"B", "Tiangong"⟩]⟩]).error ≠
      none ∧
    (fetchDataStep (⟨none, [], false, some issErrorMessage⟩ : ISSState Nat)
        (TickOutcome.completed ⟨true, 42⟩
          ⟨true, [⟨"A", "ISS"⟩, ⟨"B", "Tiangong"⟩]⟩)).position = some 42 ∧
    (fetchDataStep (⟨none, [], false, some issErrorMessage⟩ : ISSState Nat)
        (TickOutcome.completed ⟨true, 42⟩
          ⟨true, [⟨"A", "ISS"⟩, ⟨"B", "Tiangong"⟩]⟩)).astronauts =
      [⟨"A", "ISS"⟩] := by
  have h := iss_error_never_cleared
    (⟨none, [], false, some issErrorMessage⟩ : ISSState Nat)
    [TickOutcome.posThrow,
     TickOutcome.completed ⟨true, 42⟩ ⟨true, [⟨"A", "ISS"⟩, ⟨"B", "Tiangong"⟩]⟩]
    (by simp)
  have h2 := h.2 ⟨true, 42⟩ ⟨true, [⟨"A", "ISS"⟩, ⟨"B", "Tiangong"⟩]⟩ rfl rfl
  exact ⟨h.1, h2.1, by rw [h2.2]; decide⟩

/-- C10: in a tick whose two fetch/parse stages both complete, an
envelope with a false `success` tag leaves the corresponding state
untouched and the error state unchanged; only a throwing stage ever
changes the error state. -/
theorem iss_failed_envelope_ignored {π : Type} (s : ISSState π)
    (pos : PosJson π) (astro : AstroJson) :
    (pos.success = false →
      (fetchDataStep s (TickOutcome.completed pos astro)).position =
        s.position) ∧
    (astro.success = false →
      (fetchDataStep s (TickOutcome.completed pos astro)).astronauts =
        s.astronauts) ∧
    (fetchDataStep s (TickOutcome.completed pos astro)).error = s.error ∧
    (∀ o : TickOutcome π, (fetchDataStep s o).error ≠ s.error →
      o = TickOutcome.posThrow ∨ ∃ p, o = TickOutcome.astroThrow p) := by
  refine ⟨?_, ?_, ?_, ?_⟩
  · intro hp
    cases ha : astro.success <;> simp [fetchDataStep, hp, ha]
  · intro ha
    cases hp : pos.success <;> simp [fetchDataStep, hp, ha]
  · cases hp : pos.success <;> cases ha : astro.success <;>
      simp [fetchDataStep, hp, ha]
  · intro o ho
    cases o with
    | posThrow => exact Or.inl rfl
    | astroThrow p => exact Or.inr ⟨p, rfl⟩
    | completed p a =>
      exfalso
      apply ho
      cases hp : p.success <;> cases ha : a.success <;>
        simp [fetchDataStep, hp, ha]

/-- C10 witness: a completed tick carrying two failure envelopes leaves
position, astronauts and error exactly as they were. -/
theorem iss_failed_envelope_ignored_witness :
    (fetchDataStep (⟨some 9, [⟨"A", "ISS"⟩], false, none⟩ : ISSState Nat)
        (TickOutcome.completed ⟨false, 42⟩ ⟨false, []⟩)).position = some 9 ∧
    (fetchDataStep (⟨some 9, [⟨"A", "ISS"⟩], false, none⟩ : ISSState Nat)
        (TickOutcome.completed ⟨false, 42⟩ ⟨false, []⟩)).astronauts =
      [⟨"A", "ISS"⟩] ∧
    (fetchDataStep (⟨some 9, [⟨"A", "ISS"⟩], false, none⟩ : ISSState Nat)
        (TickOutcome.completed ⟨false, 42⟩ ⟨false, []⟩)).error = none := by
  have h := iss_failed_envelope_ignored
    (⟨some 9, [⟨"A", "ISS"⟩], false, none⟩ : ISSState Nat)
    ⟨false, 42⟩ ⟨false, []⟩
  exact ⟨h.1 rfl, h.2.1 rfl, h.2.2.1⟩
